import Mathlib

/-!
Verification of the XCM nonfungibles adapter (`nonfungibles_adapter.rs` in
`xcm-builder`).  The two adapters (`NonFungiblesTransferAdapter` and
`NonFungiblesMutateAdapter`) are embedded as functions over an explicit ledger
state; every trait call of the source (`owner`, `can_transfer`, `mint_into`,
`burn`, `transfer`) is threaded through the state so that reads and mutations
are both visible in the result type.  Collection ids, item ids, account ids,
asset descriptors and locations are all opaque values, embedded as `Nat`.
-/

namespace NFAdapter

/-- Tracking mode of a collection (`MintLocation` in the source): `Local` means
teleports of the asset are tracked so that no more come in than have gone out;
`NonLocal` means no more may go out than have come in. -/
inductive MintLocation
  | Local
  | NonLocal
deriving DecidableEq

/-- Errors surfaced by the adapter operations: the two converted match errors
(`AssetNotHandled`, `AccountIdConversionFailed`), the two conservation pre-check
failures, and the wrapper around an opaque ledger failure reason
(`FailedToTransactAsset` in the source, `TransactionFailed` in the spec). -/
inductive XcmError
  | assetNotHandled
  | accountConversionFailed
  | notDepositable
  | notWithdrawable
  | transactionFailed (reason : Nat)
deriving DecidableEq

/-- Modelled from the spec: the external Ledger (the `frame_support`
nonfungibles traits, whose implementation is not part of this file's source):
ownership storage `owner(collection, item) -> Option<Account>` together with the
per-item transferability flag consulted by `can_transfer`. -/
structure Ledger where
  owner : Nat → Nat → Option Nat
  canTransfer : Nat → Nat → Bool

/-- Point update of the ownership storage. -/
def Ledger.setOwner (s : Ledger) (c i : Nat) (o : Option Nat) : Ledger :=
  { s with owner := fun c2 i2 => if c2 = c ∧ i2 = i then o else s.owner c2 i2 }

/-- Modelled from the spec: `Ledger.owner` as a read-only ledger action. -/
def Ledger.ownerOf (c i : Nat) (s : Ledger) : Option Nat × Ledger :=
  (s.owner c i, s)

/-- Modelled from the spec: `Ledger.can_transfer` as a read-only ledger action. -/
def Ledger.canTransferOf (c i : Nat) (s : Ledger) : Bool × Ledger :=
  (s.canTransfer c i, s)

/-- Modelled from the spec: `Ledger.mint_into(collection, item, account)`
creates the item owned by the given account; it fails (opaque reason `0`) when
the item already exists, and a failing call leaves the ledger unchanged. -/
def Ledger.mintIntoOp (c i a : Nat) (s : Ledger) : Except Nat Unit × Ledger :=
  match s.owner c i with
  | some _ => (Except.error 0, s)
  | none => (Except.ok (), s.setOwner c i (some a))

/-- Modelled from the spec: `Ledger.burn(collection, item, expected_owner)`
destroys the item; it fails when the item does not exist (opaque reason `1`) or
when an expected owner is given and does not match (opaque reason `2`), and a
failing call leaves the ledger unchanged. -/
def Ledger.burnOp (c i : Nat) (expected : Option Nat) (s : Ledger) :
    Except Nat Unit × Ledger :=
  match s.owner c i with
  | none => (Except.error 1, s)
  | some o =>
    match expected with
    | some e =>
      if o = e then (Except.ok (), s.setOwner c i none) else (Except.error 2, s)
    | none => (Except.ok (), s.setOwner c i none)

/-- Modelled from the spec: `Ledger.transfer(collection, item, destination)`
moves ownership of an existing item; it fails when the item does not exist
(opaque reason `1`) or is not transferable (opaque reason `3`), and a failing
call leaves the ledger unchanged. -/
def Ledger.transferOp (c i dest : Nat) (s : Ledger) : Except Nat Unit × Ledger :=
  match s.owner c i with
  | none => (Except.error 1, s)
  | some _ =>
    if s.canTransfer c i then (Except.ok (), s.setOwner c i (some dest))
    else (Except.error 3, s)

/-- Static configuration of the adapter: the Matcher
(`Matcher::matches_nonfungibles`, `none` meaning the descriptor is not
handled), the AccountIdConverter (`AccountIdConverter::convert_location`), the
per-collection tracking policy (`CheckAsset::asset_checking`) and the optional
checking (sentinel) account (`CheckingAccount::get`). -/
structure Config where
  matchAsset : Nat → Option (Nat × Nat)
  convertLocation : Nat → Option Nat
  assetChecking : Nat → Option MintLocation
  checkingAccount : Option Nat

/-- Source `Matcher::matches_nonfungibles(what)?`: a rejected descriptor
surfaces as the `AssetNotHandled` match error. -/
def Config.matchesNonfungibles (cfg : Config) (what : Nat) :
    Except XcmError (Nat × Nat) :=
  match cfg.matchAsset what with
  | some p => Except.ok p
  | none => Except.error XcmError.assetNotHandled

/-- True exactly when an `Except` value is an error. -/
def isErr {ε α : Type} : Except ε α → Bool
  | Except.error _ => true
  | Except.ok _ => false

/-- Source `can_accrue_checked` (lines 107-110): requires the item to be
currently unowned, failing with `NotDepositable` otherwise.  Note that, unlike
`can_reduce_checked`, it does not consult the checking account. -/
def can_accrue_checked (cls inst : Nat) (s : Ledger) :
    Except XcmError Unit × Ledger :=
  let (o, s1) := Ledger.ownerOf cls inst s
  if o.isNone then (Except.ok (), s1) else (Except.error XcmError.notDepositable, s1)

/-- Source `can_reduce_checked` (lines 111-119): when the checking account is
configured, requires the sentinel to own the item and the item to be
transferable, failing with `NotWithdrawable` otherwise; with no checking
account it succeeds unconditionally. -/
def can_reduce_checked (cfg : Config) (cls inst : Nat) (s : Ledger) :
    Except XcmError Unit × Ledger :=
  match cfg.checkingAccount with
  | some checkingAccount =>
    let (o, s1) := Ledger.ownerOf cls inst s
    if o = some checkingAccount then
      let (ct, s2) := Ledger.canTransferOf cls inst s1
      if ct then (Except.ok (), s2) else (Except.error XcmError.notWithdrawable, s2)
    else (Except.error XcmError.notWithdrawable, s1)
  | none => (Except.ok (), s)

/-- Source `accrue_checked` (lines 120-125): with the checking account
configured, mint the item into it; the boolean is the `ok` value fed to the
`debug_assert!`, so `false` means the defensive assertion fires.  With no
checking account nothing happens. -/
def accrue_checked (cfg : Config) (cls inst : Nat) (s : Ledger) : Bool × Ledger :=
  match cfg.checkingAccount with
  | some checkingAccount =>
    let (r, s1) := Ledger.mintIntoOp cls inst checkingAccount s
    (!(isErr r), s1)
  | none => (true, s)

/-- Source `reduce_checked` (lines 126-129): burn the item with no
expected-owner check, regardless of the checking-account configuration; the
boolean is the `ok` value fed to the `debug_assert!`. -/
def reduce_checked (cls inst : Nat) (s : Ledger) : Bool × Ledger :=
  let (r, s1) := Ledger.burnOp cls inst none s
  (!(isErr r), s1)

/-- Source `can_check_in` (lines 153-170).  The tracing-only parameters
(`origin`, `context`) are omitted. -/
def can_check_in (cfg : Config) (what : Nat) (s : Ledger) :
    Except XcmError Unit × Ledger :=
  match cfg.matchesNonfungibles what with
  | Except.error e => (Except.error e, s)
  | Except.ok (cls, inst) =>
    match cfg.assetChecking cls with
    | some MintLocation.Local => can_reduce_checked cfg cls inst s
    | some MintLocation.NonLocal => can_accrue_checked cls inst s
    | none => (Except.ok (), s)

/-- Source `check_in` (lines 172-189): a commit returning no result; a rejected
descriptor is silently ignored.  The boolean records the `debug_assert!`
outcome of the inner commit helper (`true` when no assertion fires). -/
def check_in (cfg : Config) (what : Nat) (s : Ledger) : Bool × Ledger :=
  match cfg.matchAsset what with
  | some (cls, inst) =>
    match cfg.assetChecking cls with
    | some MintLocation.Local => reduce_checked cls inst s
    | some MintLocation.NonLocal => accrue_checked cfg cls inst s
    | none => (true, s)
  | none => (true, s)

/-- Source `can_check_out` (lines 191-208): as `can_check_in` with the accrue
and reduce directions swapped. -/
def can_check_out (cfg : Config) (what : Nat) (s : Ledger) :
    Except XcmError Unit × Ledger :=
  match cfg.matchesNonfungibles what with
  | Except.error e => (Except.error e, s)
  | Except.ok (cls, inst) =>
    match cfg.assetChecking cls with
    | some MintLocation.Local => can_accrue_checked cls inst s
    | some MintLocation.NonLocal => can_reduce_checked cfg cls inst s
    | none => (Except.ok (), s)

/-- Source `check_out` (lines 210-227): as `check_in` with the accrue and
reduce directions swapped. -/
def check_out (cfg : Config) (what : Nat) (s : Ledger) : Bool × Ledger :=
  match cfg.matchAsset what with
  | some (cls, inst) =>
    match cfg.assetChecking cls with
    | some MintLocation.Local => accrue_checked cfg cls inst s
    | some MintLocation.NonLocal => reduce_checked cls inst s
    | none => (true, s)
  | none => (true, s)

/-- Source `deposit_asset` (lines 229-245): match the descriptor, resolve
`who`, then unconditionally mint into the resolved account, wrapping a ledger
failure as `TransactionFailed`. -/
def deposit_asset (cfg : Config) (what who : Nat) (s : Ledger) :
    Except XcmError Unit × Ledger :=
  match cfg.matchesNonfungibles what with
  | Except.error e => (Except.error e, s)
  | Except.ok (cls, inst) =>
    match cfg.convertLocation who with
    | none => (Except.error XcmError.accountConversionFailed, s)
    | some whoAcct =>
      match Ledger.mintIntoOp cls inst whoAcct s with
      | (Except.ok _, s1) => (Except.ok (), s1)
      | (Except.error e, s1) => (Except.error (XcmError.transactionFailed e), s1)

/-- Source `withdraw_asset` (lines 247-268): resolve `who` first, then match
the descriptor, then unconditionally burn from the resolved account, returning
the original descriptor on success. -/
def withdraw_asset (cfg : Config) (what who : Nat) (s : Ledger) :
    Except XcmError Nat × Ledger :=
  match cfg.convertLocation who with
  | none => (Except.error XcmError.accountConversionFailed, s)
  | some whoAcct =>
    match cfg.matchesNonfungibles what with
    | Except.error e => (Except.error e, s)
    | Except.ok (cls, inst) =>
      match Ledger.burnOp cls inst (some whoAcct) s with
      | (Except.ok _, s1) => (Except.ok what, s1)
      | (Except.error e, s1) => (Except.error (XcmError.transactionFailed e), s1)

/-- Source `transfer_asset` (lines 52-75, `NonFungiblesTransferAdapter`): match
the descriptor, resolve `to`, invoke the ledger transfer, and return the
original descriptor on success.  The `from` location is accepted but not
consulted, as in the source. -/
def transfer_asset (cfg : Config) (what _fromLoc toLoc : Nat) (s : Ledger) :
    Except XcmError Nat × Ledger :=
  match cfg.matchesNonfungibles what with
  | Except.error e => (Except.error e, s)
  | Except.ok (cls, inst) =>
    match cfg.convertLocation toLoc with
    | none => (Except.error XcmError.accountConversionFailed, s)
    | some dest =>
      match Ledger.transferOp cls inst dest s with
      | (Except.ok _, s1) => (Except.ok what, s1)
      | (Except.error e, s1) => (Except.error (XcmError.transactionFailed e), s1)

/-- Reading back a point update at the updated point. -/
theorem Ledger.setOwner_self (s : Ledger) (c i : Nat) (o : Option Nat) :
    (s.setOwner c i o).owner c i = o := by
  simp [Ledger.setOwner]

/-- A point update leaves `canTransfer` untouched. -/
theorem Ledger.setOwner_canTransfer (s : Ledger) (c i : Nat) (o : Option Nat)
    (c2 i2 : Nat) : (s.setOwner c i o).canTransfer c2 i2 = s.canTransfer c2 i2 := by
  simp [Ledger.setOwner]

/-- Concrete configuration for witnesses: descriptor `a` maps to item `(a, 42)`
except descriptor `9`, which the Matcher rejects; location `99` is
unresolvable and every other location resolves to itself; collection `1` is
tracked `Local`, collection `2` is tracked `NonLocal`, every other collection
is untracked; the checking (sentinel) account is `5`. -/
def cfgTracked : Config :=
  { matchAsset := fun a => if a = 9 then none else some (a, 42)
    convertLocation := fun l => if l = 99 then none else some l
    assetChecking := fun c =>
      if c = 1 then some MintLocation.Local
      else if c = 2 then some MintLocation.NonLocal
      else none
    checkingAccount := some 5 }

/-- Concrete configuration with the checking account unset: every descriptor
maps to item `(1, 42)` and collection `1` is tracked `NonLocal`. -/
def cfgNoSentinel : Config :=
  { matchAsset := fun _ => some (1, 42)
    convertLocation := fun l => some l
    assetChecking := fun _ => some MintLocation.NonLocal
    checkingAccount := none }

/-- Concrete ledger with no items and everything transferable. -/
def ledgerEmpty : Ledger :=
  { owner := fun _ _ => none
    canTransfer := fun _ _ => true }

/-- Concrete ledger in which item `(1, 42)` is owned by the sentinel account
`5` of `cfgTracked`. -/
def ledgerSentinelOwns : Ledger :=
  { owner := fun c i => if c = 1 ∧ i = 42 then some 5 else none
    canTransfer := fun _ _ => true }

/-- Concrete ledger in which item `(1, 42)` is owned by account `7`. -/
def ledgerOwned7 : Ledger :=
  { owner := fun c i => if c = 1 ∧ i = 42 then some 7 else none
    canTransfer := fun _ _ => true }

/-- The accrue validator leaves the ledger unchanged. -/
theorem can_accrue_checked_ledger (cls inst : Nat) (s : Ledger) :
    (can_accrue_checked cls inst s).2 = s := by
  simp only [can_accrue_checked, Ledger.ownerOf]
  split <;> rfl

/-- The reduce validator leaves the ledger unchanged. -/
theorem can_reduce_checked_ledger (cfg : Config) (cls inst : Nat) (s : Ledger) :
    (can_reduce_checked cfg cls inst s).2 = s := by
  unfold can_reduce_checked Ledger.ownerOf Ledger.canTransferOf
  cases cfg.checkingAccount
  · rfl
  · dsimp only
    split
    · split <;> rfl
    · rfl

/-- C9: the validators `can_check_in` and `can_check_out` never mutate the
ledger state: for every configuration (sentinel set or unset), descriptor
(matched or not, any tracking mode) and ledger state, the ledger coming out of
the validator is exactly the ledger that went in. -/
theorem C9_validators_pure (cfg : Config) (what : Nat) (s : Ledger) :
    (can_check_in cfg what s).2 = s ∧ (can_check_out cfg what s).2 = s := by
  constructor
  · cases h : cfg.matchesNonfungibles what with
    | error e => simp [can_check_in, h]
    | ok p =>
      obtain ⟨cls, inst⟩ := p
      cases hac : cfg.assetChecking cls with
      | none => simp [can_check_in, h, hac]
      | some m =>
        cases m <;>
          simp [can_check_in, h, hac, can_reduce_checked_ledger,
            can_accrue_checked_ledger]
  · cases h : cfg.matchesNonfungibles what with
    | error e => simp [can_check_out, h]
    | ok p =>
      obtain ⟨cls, inst⟩ := p
      cases hac : cfg.assetChecking cls with
      | none => simp [can_check_out, h, hac]
      | some m =>
        cases m <;>
          simp [can_check_out, h, hac, can_reduce_checked_ledger,
            can_accrue_checked_ledger]

/-- C5: for a matched descriptor whose collection is untracked
(`asset_checking` returns `none`), both validators succeed and both commits
leave the ledger unchanged with no assertion fired, whatever the ledger
state. -/
theorem C5_untracked_noop (cfg : Config) (what cls inst : Nat) (s : Ledger)
    (hm : cfg.matchAsset what = some (cls, inst))
    (hunt : cfg.assetChecking cls = none) :
    (can_check_in cfg what s).1 = Except.ok () ∧
    (can_check_out cfg what s).1 = Except.ok () ∧
    check_in cfg what s = (true, s) ∧
    check_out cfg what s = (true, s) := by
  unfold can_check_in can_check_out check_in check_out Config.matchesNonfungibles
  rw [hm]
  simp [hunt]

/-- C5 witness: in `cfgTracked`, descriptor `3` maps to the untracked
collection `3`; over the nonempty ledger `ledgerOwned7` the four untracked
no-op facts hold. -/
theorem C5_untracked_noop_witness :
    (can_check_in cfgTracked 3 ledgerOwned7).1 = Except.ok () ∧
    (can_check_out cfgTracked 3 ledgerOwned7).1 = Except.ok () ∧
    check_in cfgTracked 3 ledgerOwned7 = (true, ledgerOwned7) ∧
    check_out cfgTracked 3 ledgerOwned7 = (true, ledgerOwned7) :=
  C5_untracked_noop cfgTracked 3 3 42 ledgerOwned7 rfl rfl

/-- Result of the accrue validator: success exactly when the item is unowned. -/
theorem can_accrue_checked_result (cls inst : Nat) (s : Ledger) :
    (can_accrue_checked cls inst s).1 =
      (if s.owner cls inst = none then Except.ok ()
       else Except.error XcmError.notDepositable) := by
  simp only [can_accrue_checked, Ledger.ownerOf]
  by_cases h : s.owner cls inst = none <;> simp [h, Option.isNone_iff_eq_none]

/-- Result of the reduce validator when the checking account is configured:
success exactly when the sentinel owns the item and it is transferable. -/
theorem can_reduce_checked_result (cfg : Config) (cls inst acct : Nat) (s : Ledger)
    (hsent : cfg.checkingAccount = some acct) :
    (can_reduce_checked cfg cls inst s).1 =
      (if s.owner cls inst = some acct ∧ s.canTransfer cls inst = true
       then Except.ok () else Except.error XcmError.notWithdrawable) := by
  simp only [can_reduce_checked, Ledger.ownerOf, Ledger.canTransferOf, hsent]
  by_cases h1 : s.owner cls inst = some acct <;>
    by_cases h2 : s.canTransfer cls inst = true <;> simp [h1, h2]

/-- C2: with the checking account configured, the validate-reduce direction
(`can_check_in` on a `Local`-tracked collection, `can_check_out` on a
`NonLocal`-tracked one) succeeds exactly when the sentinel owns the matched
item and it is transferable, and fails with `NotWithdrawable` otherwise. -/
theorem C2_reduce_validators (cfg : Config) (what cls inst acct : Nat) (s : Ledger)
    (hsent : cfg.checkingAccount = some acct)
    (hm : cfg.matchAsset what = some (cls, inst)) :
    (cfg.assetChecking cls = some MintLocation.Local →
      (can_check_in cfg what s).1 =
        (if s.owner cls inst = some acct ∧ s.canTransfer cls inst = true
         then Except.ok () else Except.error XcmError.notWithdrawable)) ∧
    (cfg.assetChecking cls = some MintLocation.NonLocal →
      (can_check_out cfg what s).1 =
        (if s.owner cls inst = some acct ∧ s.canTransfer cls inst = true
         then Except.ok () else Except.error XcmError.notWithdrawable)) := by
  constructor <;> intro hmode <;>
    simp [can_check_in, can_check_out, Config.matchesNonfungibles, hm, hmode,
      can_reduce_checked_result cfg cls inst acct s hsent]

/-- C2 witness: in `cfgTracked` (sentinel `5`), descriptor `1` maps to the
`Local`-tracked item `(1, 42)`, which the sentinel owns and which is
transferable in `ledgerSentinelOwns`; `can_check_in` succeeds. -/
theorem C2_reduce_validators_witness :
    (can_check_in cfgTracked 1 ledgerSentinelOwns).1 = Except.ok () := by
  have h := (C2_reduce_validators cfgTracked 1 1 42 5 ledgerSentinelOwns rfl rfl).1 rfl
  rw [h]
  rfl

/-- C3: with the checking account configured, the validate-accrue direction
(`can_check_out` on a `Local`-tracked collection, `can_check_in` on a
`NonLocal`-tracked one) succeeds exactly when the matched item is currently
unowned, and fails with `NotDepositable` otherwise. -/
theorem C3_accrue_validators (cfg : Config) (what cls inst acct : Nat) (s : Ledger)
    (_hsent : cfg.checkingAccount = some acct)
    (hm : cfg.matchAsset what = some (cls, inst)) :
    (cfg.assetChecking cls = some MintLocation.Local →
      (can_check_out cfg what s).1 =
        (if s.owner cls inst = none then Except.ok ()
         else Except.error XcmError.notDepositable)) ∧
    (cfg.assetChecking cls = some MintLocation.NonLocal →
      (can_check_in cfg what s).1 =
        (if s.owner cls inst = none then Except.ok ()
         else Except.error XcmError.notDepositable)) := by
  constructor <;> intro hmode <;>
    simp [can_check_in, can_check_out, Config.matchesNonfungibles, hm, hmode,
      can_accrue_checked_result cls inst s]

/-- C3 witness: in `cfgTracked` (sentinel `5`), descriptor `2` maps to the
`NonLocal`-tracked item `(2, 42)`, unowned in `ledgerEmpty`; `can_check_in`
succeeds. -/
theorem C3_accrue_validators_witness :
    (can_check_in cfgTracked 2 ledgerEmpty).1 = Except.ok () := by
  have h := (C3_accrue_validators cfgTracked 2 2 42 5 ledgerEmpty rfl rfl).2 rfl
  rw [h]
  rfl

/-- C10: when the `who` location is unresolvable and the Matcher rejects the
descriptor, `withdraw_asset` reports `AccountConversionFailed` (it resolves the
location first) while `deposit_asset` reports `AssetNotHandled` (it consults
the Matcher first). -/
theorem C10_resolution_order (cfg : Config) (what who : Nat) (s : Ledger)
    (hm : cfg.matchAsset what = none) (hw : cfg.convertLocation who = none) :
    (withdraw_asset cfg what who s).1 = Except.error XcmError.accountConversionFailed ∧
    (deposit_asset cfg what who s).1 = Except.error XcmError.assetNotHandled := by
  unfold withdraw_asset deposit_asset Config.matchesNonfungibles
  rw [hm, hw]
  simp

/-- C10 witness: in `cfgTracked`, descriptor `9` is rejected by the Matcher and
location `99` is unresolvable; the two operations report different errors on
the same input. -/
theorem C10_resolution_order_witness :
    (withdraw_asset cfgTracked 9 99 ledgerEmpty).1 =
      Except.error XcmError.accountConversionFailed ∧
    (deposit_asset cfgTracked 9 99 ledgerEmpty).1 =
      Except.error XcmError.assetNotHandled :=
  C10_resolution_order cfgTracked 9 99 ledgerEmpty rfl rfl

/-- C1 counterexample: with the checking account unset (`cfgNoSentinel`),
collection `1` tracked `NonLocal` and item `(1, 42)` owned by account `7`,
`can_check_in` fails with `NotDepositable` instead of succeeding, and
`check_out` burns the item (a ledger mutation) even though tracking is
supposedly disabled. -/
theorem C1_counterexample :
    (can_check_in cfgNoSentinel 0 ledgerOwned7).1 =
      Except.error XcmError.notDepositable ∧
    (check_out cfgNoSentinel 0 ledgerOwned7).2.owner 1 42 = none := by
  constructor <;> rfl

/-- C1 (amended): with the checking account unset, for a matched descriptor:
the validate-reduce direction and the untracked validators succeed
unconditionally and the accrue commits leave the ledger untouched, but the
validate-accrue direction still demands an unowned item (failing with
`NotDepositable` otherwise) and the reduce commits still delegate to the
unguarded burn, removing the owner of an owned item. -/
theorem C1_amended (cfg : Config) (what cls inst : Nat) (s : Ledger)
    (hsent : cfg.checkingAccount = none)
    (hm : cfg.matchAsset what = some (cls, inst)) :
    (cfg.assetChecking cls = some MintLocation.Local →
      (can_check_in cfg what s).1 = Except.ok () ∧
      check_in cfg what s = reduce_checked cls inst s) ∧
    (cfg.assetChecking cls = some MintLocation.NonLocal →
      (can_check_out cfg what s).1 = Except.ok () ∧
      check_out cfg what s = reduce_checked cls inst s) ∧
    (cfg.assetChecking cls = some MintLocation.NonLocal →
      ((can_check_in cfg what s).1 = Except.ok () ↔ s.owner cls inst = none) ∧
      check_in cfg what s = (true, s)) ∧
    (cfg.assetChecking cls = some MintLocation.Local →
      ((can_check_out cfg what s).1 = Except.ok () ↔ s.owner cls inst = none) ∧
      check_out cfg what s = (true, s)) ∧
    (cfg.assetChecking cls = none →
      (can_check_in cfg what s).1 = Except.ok () ∧
      (can_check_out cfg what s).1 = Except.ok () ∧
      check_in cfg what s = (true, s) ∧ check_out cfg what s = (true, s)) := by
  refine ⟨?_, ?_, ?_, ?_, ?_⟩ <;> intro hmode
  · constructor
    · simp [can_check_in, Config.matchesNonfungibles, hm, hmode,
        can_reduce_checked, hsent]
    · simp [check_in, hm, hmode]
  · constructor
    · simp [can_check_out, Config.matchesNonfungibles, hm, hmode,
        can_reduce_checked, hsent]
    · simp [check_out, hm, hmode]
  · constructor
    · have h : (can_check_in cfg what s).1 = (can_accrue_checked cls inst s).1 := by
        simp [can_check_in, Config.matchesNonfungibles, hm, hmode]
      rw [h, can_accrue_checked_result]
      by_cases ho : s.owner cls inst = none <;> simp [ho]
    · simp [check_in, hm, hmode, accrue_checked, hsent]
  · constructor
    · have h : (can_check_out cfg what s).1 = (can_accrue_checked cls inst s).1 := by
        simp [can_check_out, Config.matchesNonfungibles, hm, hmode]
      rw [h, can_accrue_checked_result]
      by_cases ho : s.owner cls inst = none <;> simp [ho]
    · simp [check_out, hm, hmode, accrue_checked, hsent]
  · exact ⟨by simp [can_check_in, Config.matchesNonfungibles, hm, hmode],
      by simp [can_check_out, Config.matchesNonfungibles, hm, hmode],
      by simp [check_in, hm, hmode], by simp [check_out, hm, hmode]⟩

/-- C1 (amended) witness: in `cfgNoSentinel`, the `NonLocal` accrue commit
`check_in` leaves the ledger untouched with no assertion fired. -/
theorem C1_amended_witness :
    check_in cfgNoSentinel 0 ledgerOwned7 = (true, ledgerOwned7) :=
  ((C1_amended cfgNoSentinel 0 1 42 ledgerOwned7 rfl rfl).2.2.1 rfl).2

/-- C4: with the checking account configured, for a matched `Local`-tracked
item, a `check_out` followed by a `check_in` (each preceded by its successful
validator) restores the ownership state of the item to its value before the
`check_out`; symmetrically for a `NonLocal`-tracked item with `check_in`
followed by `check_out`. -/
theorem C4_round_trip (cfg : Config) (what cls inst acct : Nat) (s : Ledger)
    (hsent : cfg.checkingAccount = some acct)
    (hm : cfg.matchAsset what = some (cls, inst)) :
    (cfg.assetChecking cls = some MintLocation.Local →
      (can_check_out cfg what s).1 = Except.ok () →
      (can_check_in cfg what (check_out cfg what s).2).1 = Except.ok () →
      (check_in cfg what (check_out cfg what s).2).2.owner cls inst =
        s.owner cls inst) ∧
    (cfg.assetChecking cls = some MintLocation.NonLocal →
      (can_check_in cfg what s).1 = Except.ok () →
      (can_check_out cfg what (check_in cfg what s).2).1 = Except.ok () →
      (check_out cfg what (check_in cfg what s).2).2.owner cls inst =
        s.owner cls inst) := by
  constructor
  · intro hmode h1 _h2
    have hv : (can_check_out cfg what s).1 = (can_accrue_checked cls inst s).1 := by
      simp [can_check_out, Config.matchesNonfungibles, hm, hmode]
    rw [hv, can_accrue_checked_result] at h1
    have ho : s.owner cls inst = none := by
      by_contra ho
      simp [ho] at h1
    have hout : (check_out cfg what s).2 = s.setOwner cls inst (some acct) := by
      simp [check_out, hm, hmode, accrue_checked, hsent, Ledger.mintIntoOp, ho]
    have hin : check_in cfg what (check_out cfg what s).2 =
        reduce_checked cls inst (check_out cfg what s).2 := by
      simp [check_in, hm, hmode]
    rw [hin, hout]
    simp [reduce_checked, Ledger.burnOp, Ledger.setOwner_self, ho]
  · intro hmode h1 _h2
    have hv : (can_check_in cfg what s).1 = (can_accrue_checked cls inst s).1 := by
      simp [can_check_in, Config.matchesNonfungibles, hm, hmode]
    rw [hv, can_accrue_checked_result] at h1
    have ho : s.owner cls inst = none := by
      by_contra ho
      simp [ho] at h1
    have hout : (check_in cfg what s).2 = s.setOwner cls inst (some acct) := by
      simp [check_in, hm, hmode, accrue_checked, hsent, Ledger.mintIntoOp, ho]
    have hin : check_out cfg what (check_in cfg what s).2 =
        reduce_checked cls inst (check_in cfg what s).2 := by
      simp [check_out, hm, hmode]
    rw [hin, hout]
    simp [reduce_checked, Ledger.burnOp, Ledger.setOwner_self, ho]

/-- C4 witness: the concrete scenario of the spec on `cfgTracked`: item
`(1, 42)` of the `Local`-tracked collection `1`, unowned in `ledgerEmpty`;
after `check_out` then `check_in` it is unowned again. -/
theorem C4_round_trip_witness :
    (check_in cfgTracked 1 (check_out cfgTracked 1 ledgerEmpty).2).2.owner 1 42 =
      ledgerEmpty.owner 1 42 :=
  (C4_round_trip cfgTracked 1 1 42 5 ledgerEmpty rfl rfl).1 rfl rfl rfl

/-- A successful ledger transfer neither creates nor destroys items: an item
exists in the resulting state exactly when it existed before. -/
theorem Ledger.transferOp_preserves_isSome (c i dest : Nat) (s s1 : Ledger)
    (h : Ledger.transferOp c i dest s = (Except.ok (), s1)) (c2 i2 : Nat) :
    (s1.owner c2 i2).isSome = (s.owner c2 i2).isSome := by
  unfold Ledger.transferOp at h
  rcases ho : s.owner c i with _ | o <;> rw [ho] at h
  · simp at h
  · by_cases hct : s.canTransfer c i
    · rw [if_pos hct] at h
      have hs1 : s1 = s.setOwner c i (some dest) := by
        have h2 := congrArg Prod.snd h
        simpa using h2.symm
      subst hs1
      simp only [Ledger.setOwner]
      by_cases hp : c2 = c ∧ i2 = i
      · obtain ⟨rfl, rfl⟩ := hp
        simp [ho]
      · simp [hp]
    · rw [if_neg hct] at h
      simp at h

/-- C6: `transfer_asset` reports `AssetNotHandled` when the Matcher rejects the
descriptor; otherwise `AccountConversionFailed` when the `to` location is
unresolvable; otherwise it wraps a ledger transfer failure as
`TransactionFailed`; otherwise it succeeds, returns the original descriptor,
and the set of existing items is unchanged (no mint, no burn). -/
theorem C6_transfer_asset (cfg : Config) (what fromLoc toLoc : Nat) (s : Ledger) :
    (cfg.matchAsset what = none →
      (transfer_asset cfg what fromLoc toLoc s).1 =
        Except.error XcmError.assetNotHandled) ∧
    (∀ cls inst, cfg.matchAsset what = some (cls, inst) →
      (cfg.convertLocation toLoc = none →
        (transfer_asset cfg what fromLoc toLoc s).1 =
          Except.error XcmError.accountConversionFailed) ∧
      (∀ dest, cfg.convertLocation toLoc = some dest →
        (∀ e, (Ledger.transferOp cls inst dest s).1 = Except.error e →
          (transfer_asset cfg what fromLoc toLoc s).1 =
            Except.error (XcmError.transactionFailed e)) ∧
        ((Ledger.transferOp cls inst dest s).1 = Except.ok () →
          transfer_asset cfg what fromLoc toLoc s =
            (Except.ok what, (Ledger.transferOp cls inst dest s).2) ∧
          ∀ c i, (((Ledger.transferOp cls inst dest s).2.owner c i).isSome) =
            ((s.owner c i).isSome)))) := by
  constructor
  · intro hm
    simp [transfer_asset, Config.matchesNonfungibles, hm]
  · intro cls inst hm
    constructor
    · intro hw
      simp [transfer_asset, Config.matchesNonfungibles, hm, hw]
    · intro dest hw
      rcases ht : Ledger.transferOp cls inst dest s with ⟨r, s1⟩
      constructor
      · intro e he
        have hr : r = Except.error e := he
        subst hr
        simp [transfer_asset, Config.matchesNonfungibles, hm, hw, ht]
      · intro hok
        have hr : r = Except.ok () := hok
        subst hr
        refine ⟨by simp [transfer_asset, Config.matchesNonfungibles, hm, hw, ht], ?_⟩
        intro c i
        exact Ledger.transferOp_preserves_isSome cls inst dest s s1 ht c i

/-- C6 witness: transferring descriptor `1` (item `(1, 42)`, owned by the
sentinel and transferable in `ledgerSentinelOwns`) to location `7` succeeds,
returns the original descriptor and preserves the set of existing items. -/
theorem C6_transfer_asset_witness :
    transfer_asset cfgTracked 1 0 7 ledgerSentinelOwns =
      (Except.ok 1, (Ledger.transferOp 1 42 7 ledgerSentinelOwns).2) ∧
    ∀ c i, (((Ledger.transferOp 1 42 7 ledgerSentinelOwns).2.owner c i).isSome) =
      ((ledgerSentinelOwns.owner c i).isSome) :=
  (((C6_transfer_asset cfgTracked 1 0 7 ledgerSentinelOwns).2 1 42 rfl).2 7 rfl).2 rfl

/-- The flag of the reduce commit is the success of the underlying burn. -/
theorem reduce_checked_flag (cls inst : Nat) (s : Ledger) :
    (reduce_checked cls inst s).1 = !(isErr (Ledger.burnOp cls inst none s).1) := by
  unfold reduce_checked
  rcases h : Ledger.burnOp cls inst none s with ⟨r, s1⟩
  rfl

/-- The flag of the accrue commit, with the checking account configured, is the
success of the underlying mint. -/
theorem accrue_checked_flag (cfg : Config) (cls inst acct : Nat) (s : Ledger)
    (hsent : cfg.checkingAccount = some acct) :
    (accrue_checked cfg cls inst s).1 =
      !(isErr (Ledger.mintIntoOp cls inst acct s).1) := by
  unfold accrue_checked
  rw [hsent]

/-- C7: whenever a commit (`check_in`/`check_out`) invokes the underlying mint
or burn, the `debug_assert!` flag is `true` exactly when that call succeeded:
a ledger failure always fires the defensive assertion, and the commit's result
type has no error channel, so it is never surfaced as a recoverable error. -/
theorem C7_commit_assert (cfg : Config) (what cls inst acct : Nat) (s : Ledger)
    (hm : cfg.matchAsset what = some (cls, inst)) :
    (cfg.assetChecking cls = some MintLocation.Local →
      (check_in cfg what s).1 = !(isErr (Ledger.burnOp cls inst none s).1)) ∧
    (cfg.assetChecking cls = some MintLocation.NonLocal →
      cfg.checkingAccount = some acct →
      (check_in cfg what s).1 =
        !(isErr (Ledger.mintIntoOp cls inst acct s).1)) ∧
    (cfg.assetChecking cls = some MintLocation.Local →
      cfg.checkingAccount = some acct →
      (check_out cfg what s).1 =
        !(isErr (Ledger.mintIntoOp cls inst acct s).1)) ∧
    (cfg.assetChecking cls = some MintLocation.NonLocal →
      (check_out cfg what s).1 = !(isErr (Ledger.burnOp cls inst none s).1)) := by
  refine ⟨?_, ?_, ?_, ?_⟩
  · intro hmode
    have h : check_in cfg what s = reduce_checked cls inst s := by
      simp [check_in, hm, hmode]
    rw [h, reduce_checked_flag]
  · intro hmode hsent
    have h : check_in cfg what s = accrue_checked cfg cls inst s := by
      simp [check_in, hm, hmode]
    rw [h, accrue_checked_flag cfg cls inst acct s hsent]
  · intro hmode hsent
    have h : check_out cfg what s = accrue_checked cfg cls inst s := by
      simp [check_out, hm, hmode]
    rw [h, accrue_checked_flag cfg cls inst acct s hsent]
  · intro hmode
    have h : check_out cfg what s = reduce_checked cls inst s := by
      simp [check_out, hm, hmode]
    rw [h, reduce_checked_flag]

/-- C7 witness: on `ledgerEmpty` the burn inside `check_in` of the
`Local`-tracked item `(1, 42)` fails (the item does not exist), and the
defensive-assertion flag is `false` (the assertion fires). -/
theorem C7_commit_assert_witness : (check_in cfgTracked 1 ledgerEmpty).1 = false := by
  have h := (C7_commit_assert cfgTracked 1 1 42 5 ledgerEmpty rfl).1 rfl
  rw [h]
  rfl

/-- C8: `deposit_asset`, once the Matcher and the AccountIdConverter have
resolved descriptor and location, mints unconditionally: it succeeds exactly
when the ledger mint succeeds, wraps a mint failure as `TransactionFailed`,
and its behaviour is independent of the tracking policy and of the checking
account. -/
theorem C8_deposit_unconditional (cfg : Config) (what who cls inst whoAcct : Nat)
    (s : Ledger) (hm : cfg.matchAsset what = some (cls, inst))
    (hw : cfg.convertLocation who = some whoAcct) :
    ((Ledger.mintIntoOp cls inst whoAcct s).1 = Except.ok () →
      deposit_asset cfg what who s =
        (Except.ok (), (Ledger.mintIntoOp cls inst whoAcct s).2)) ∧
    (∀ e, (Ledger.mintIntoOp cls inst whoAcct s).1 = Except.error e →
      deposit_asset cfg what who s =
        (Except.error (XcmError.transactionFailed e),
          (Ledger.mintIntoOp cls inst whoAcct s).2)) ∧
    (∀ ac ca,
      deposit_asset
        { cfg with assetChecking := ac, checkingAccount := ca } what who s =
        deposit_asset cfg what who s) := by
  refine ⟨?_, ?_, ?_⟩
  · rcases h : Ledger.mintIntoOp cls inst whoAcct s with ⟨r, s1⟩
    intro hok
    have hr : r = Except.ok () := hok
    subst hr
    simp [deposit_asset, Config.matchesNonfungibles, hm, hw, h]
  · rcases h : Ledger.mintIntoOp cls inst whoAcct s with ⟨r, s1⟩
    intro e he
    have hr : r = Except.error e := he
    subst hr
    simp [deposit_asset, Config.matchesNonfungibles, hm, hw, h]
  · intro ac ca
    rfl

/-- C8 witness: depositing descriptor `1` (item `(1, 42)`) to location `7` on
`ledgerEmpty` succeeds and ends in the state produced by the mint. -/
theorem C8_deposit_unconditional_witness :
    deposit_asset cfgTracked 1 7 ledgerEmpty =
      (Except.ok (), (Ledger.mintIntoOp 1 42 7 ledgerEmpty).2) :=
  (C8_deposit_unconditional cfgTracked 1 7 1 42 7 ledgerEmpty rfl rfl).1 rfl

end NFAdapter
